import Mathlib

/-!
Shallow embedding of the benchmark-statistics pipeline of
`ios-native/Scripts/benchmark.py` (class `PerformanceBenchmarker`), together
with proofs of the specification claims about it.

Python floats are idealised as exact rationals (`ℚ`); the one value whose
idealisation is irrational — the sample standard deviation, a square root —
is modelled in `ℝ`.  Python exceptions are modelled as their stringified
message, which in Python may be the empty string: an exception constructed
with no arguments stringifies to the empty string.
-/

namespace Benchmark

/-- The categories list of `_categorize_performance`: the four category
labels in order from best to worst. -/
def categoriesList : List String := ["excellent", "good", "acceptable", "poor"]

/-- One per-metric entry of `self.thresholds`: four named cutoffs. -/
structure Thresholds where
  excellent : ℚ
  good : ℚ
  acceptable : ℚ
  poor : ℚ
deriving DecidableEq

/-- Entry duration_ms of the thresholds table. -/
def durationThresholds : Thresholds := ⟨100, 500, 1000, 5000⟩

/-- Entry memory_mb of the thresholds table. -/
def memoryThresholds : Thresholds := ⟨10, 25, 50, 100⟩

/-- Entry cpu_percent of the thresholds table. -/
def cpuThresholds : Thresholds := ⟨20, 50, 80, 100⟩

/-- Function `_get_category(value, metric)`: chain of value-vs-cutoff
tests; the `poor` cutoff is never consulted. -/
def get_category (value : ℚ) (t : Thresholds) : String :=
  if value ≤ t.excellent then "excellent"
  else if value ≤ t.good then "good"
  else if value ≤ t.acceptable then "acceptable"
  else "poor"

/-- The `metadata` dict built by `_run_single_benchmark` on success.
`std_dev_ms` is a float square root in the source, hence `ℝ` here. -/
structure Metadata where
  iterations : ℕ
  min_duration_ms : ℚ
  max_duration_ms : ℚ
  std_dev_ms : ℝ

/-- The `BenchmarkResult` dataclass. -/
structure BenchmarkResult where
  name : String
  duration_ms : ℚ
  memory_mb : ℚ
  cpu_percent : ℚ
  success : Bool
  error : Option String
  metadata : Option Metadata

/-- Function `_categorize_performance(result)`: per-metric category of the three
metrics, then `categories[max(index of each)]` — the worst category.
The `getD` default is never used (the index is at most 3, proved below). -/
def categorize_performance (r : BenchmarkResult) : String :=
  let duration_category := get_category r.duration_ms durationThresholds
  let memory_category := get_category r.memory_mb memoryThresholds
  let cpu_category := get_category r.cpu_percent cpuThresholds
  let worst_index := max (categoriesList.indexOf duration_category)
    (max (categoriesList.indexOf memory_category)
      (categoriesList.indexOf cpu_category))
  categoriesList.getD worst_index ""

/-- Python statistics.mean over exact rationals: sum divided by length
(the sole caller passes a non-empty list, so the `0/0` case is dead). -/
def mean (l : List ℚ) : ℚ := l.sum / l.length

/-- Python builtin `min` over a list (raises on `[]` in Python; the `0`
default is dead code, every caller passes a non-empty list). -/
def pyMin (l : List ℚ) : ℚ :=
  match l with
  | [] => 0
  | x :: xs => xs.foldl min x

/-- Python builtin `max` over a list (same dead-default remark as `pyMin`). -/
def pyMax (l : List ℚ) : ℚ :=
  match l with
  | [] => 0
  | x :: xs => xs.foldl max x

/-- Python statistics.stdev: sample standard deviation,
`sqrt (Σ (x − mean)² / (n − 1))`.  Irrational in general, hence valued
in `ℝ`. -/
noncomputable def stdev (l : List ℚ) : ℝ :=
  Real.sqrt ((l.map (fun x => ((x : ℝ) - ((mean l : ℚ) : ℝ)) ^ 2)).sum
    / ((l.length : ℝ) - 1))

/-- Function `_percentile(data, percentile)`: zero on the empty list, otherwise the
element of the ascending sort at index `int(len * p / 100)` clamped to the
last valid index.  `int(...)` of the non-negative float quotient is the
floor, i.e. natural division. -/
def percentile (data : List ℚ) (p : ℕ) : ℚ :=
  if data.isEmpty then 0
  else
    let sorted_data := List.insertionSort (· ≤ ·) data
    let index := sorted_data.length * p / 100
    sorted_data.getD (min index (sorted_data.length - 1)) 0

/-- Function `_generate_recommendations(results)`: three independent threshold rules
applied in order, then the affirmation when none fired. -/
def generate_recommendations (results : List BenchmarkResult) : List String :=
  let slow_operations := results.filter (fun r => decide (100 < r.duration_ms))
  let recs1 : List String :=
    if !slow_operations.isEmpty then
      ["Consider optimizing " ++ toString slow_operations.length ++
        " slow operations: " ++
        String.intercalate ", " ((slow_operations.take 3).map (fun r => r.name))]
    else []
  let high_memory_ops := results.filter (fun r => decide (25 < r.memory_mb))
  let recs2 : List String :=
    if !high_memory_ops.isEmpty then
      recs1 ++ ["Review memory usage for " ++ toString high_memory_ops.length ++
        " memory-intensive operations"]
    else recs1
  let high_cpu_ops := results.filter (fun r => decide (50 < r.cpu_percent))
  let recs3 : List String :=
    if !high_cpu_ops.isEmpty then
      recs2 ++ ["Optimize CPU usage for " ++ toString high_cpu_ops.length ++
        " CPU-intensive operations"]
    else recs2
  if recs3.isEmpty then ["Excellent performance across all benchmarks!"]
  else recs3

/-- The `performance_stats` block of the summary dict. -/
structure PerformanceStats where
  avg_duration_ms : ℚ
  min_duration_ms : ℚ
  max_duration_ms : ℚ
  p95_duration_ms : ℚ
  p99_duration_ms : ℚ
deriving DecidableEq

/-- The `memory_stats` block of the summary dict. -/
structure MemoryStats where
  avg_memory_mb : ℚ
  max_memory_mb : ℚ
  total_memory_mb : ℚ
deriving DecidableEq

/-- The `cpu_stats` block of the summary dict. -/
structure CpuStats where
  avg_cpu_percent : ℚ
  max_cpu_percent : ℚ
deriving DecidableEq

/-- The per-tier counter dict of `_generate_summary`, each counter
starting at zero. -/
structure Categories where
  excellent : ℕ
  good : ℕ
  acceptable : ℕ
  poor : ℕ
deriving DecidableEq

/-- Counter increment of `_generate_summary`: bump the field named by `key`.  A key other
than the four dict keys would raise `KeyError` in Python; that branch is
modelled as the identity and proved unreachable. -/
def bumpCategory (c : Categories) (key : String) : Categories :=
  if key = "excellent" then { c with excellent := c.excellent + 1 }
  else if key = "good" then { c with good := c.good + 1 }
  else if key = "acceptable" then { c with acceptable := c.acceptable + 1 }
  else if key = "poor" then { c with poor := c.poor + 1 }
  else c

/-- The summary dict of `_generate_summary`.  The early-return dict of the
zero-successes branch lacks the stat blocks, the category counts and the
recommendations; those are `Option` fields, `none` meaning the key is
absent. -/
structure Summary where
  total_tests : ℕ
  successful : ℕ
  failed : ℕ
  success_rate : ℚ
  total_duration_ms : ℚ
  performance_stats : Option PerformanceStats
  memory_stats : Option MemoryStats
  cpu_stats : Option CpuStats
  performance_categories : Option Categories
  recommendations : Option (List String)

/-- Function `_generate_summary(results, total_duration)`. -/
def generate_summary (results : List BenchmarkResult) (total_duration : ℚ) :
    Summary :=
  let successful_results := results.filter (fun r => r.success)
  let failed_results := results.filter (fun r => !r.success)
  if successful_results.isEmpty then
    { total_tests := results.length
      successful := 0
      failed := failed_results.length
      success_rate := 0
      total_duration_ms := total_duration
      performance_stats := none
      memory_stats := none
      cpu_stats := none
      performance_categories := none
      recommendations := none }
  else
    let durations := successful_results.map (fun r => r.duration_ms)
    let memory_usage := successful_results.map (fun r => r.memory_mb)
    let cpu_usage := successful_results.map (fun r => r.cpu_percent)
    let categories := successful_results.foldl
      (fun c r => bumpCategory c (categorize_performance r)) ⟨0, 0, 0, 0⟩
    { total_tests := results.length
      successful := successful_results.length
      failed := failed_results.length
      success_rate := (successful_results.length : ℚ) / (results.length : ℚ) * 100
      total_duration_ms := total_duration
      performance_stats := some
        ⟨mean durations, pyMin durations, pyMax durations,
          percentile durations 95, percentile durations 99⟩
      memory_stats := some ⟨mean memory_usage, pyMax memory_usage, memory_usage.sum⟩
      cpu_stats := some ⟨mean cpu_usage, pyMax cpu_usage⟩
      performance_categories := some categories
      recommendations := some (generate_recommendations successful_results) }

/-! ## Probe runner (`_run_single_benchmark` and the suite loops)

The ambient machine state observable by the runner is a wall clock
(`time.perf_counter`, idealised in seconds as `ℚ`) and the process memory
(`_get_memory_usage()`, in MB).  A work unit (`benchmark_func`) transforms
that state, or raises: it is a function `World → Except String World`; the
error value is the stringified exception `str(e)`, possibly `""`. -/

/-- Machine state read by the runner: the wall clock and process memory. -/
structure World where
  clock : ℚ
  mem : ℚ
deriving DecidableEq

/-- A zero-argument work unit: transforms the world or raises (the `String`
is the stringified exception). -/
abbrev Work : Type := World → Except String World

/-- The `for _ in range(n)` loop of `_run_single_benchmark`: each iteration
reads `perf_counter`, invokes the work unit once, reads `perf_counter`
again and records the difference times 1000 (ms).  Returns the final world,
the recorded durations in order, and the number of invocations of the work
unit (each recursive step performs exactly one invocation and adds one to
the count).  A raise aborts the loop, carrying the message and the world at
the point of failure. -/
def runIters (work : Work) : World → ℕ → Except (String × World) (World × List ℚ × ℕ)
  | w, 0 => Except.ok (w, [], 0)
  | w, n + 1 =>
    match work w with
    | Except.error e => Except.error (e, w)
    | Except.ok w1 =>
      match runIters work w1 n with
      | Except.error e => Except.error e
      | Except.ok (wf, ds, c) => Except.ok (wf, ((w1.clock - w.clock) * 1000) :: ds, c + 1)

/-- Function `_run_single_benchmark(name, benchmark_func)`: memory before, 5 timed
iterations, memory after; on success the mean duration, the clamped memory
delta, the `min(100, avg/10)` CPU approximation and the metadata dict; on
any raise the all-zero failed result carrying `str(e)`.  Also returns the
world in which execution continues. -/
noncomputable def run_single_benchmark (name : String) (work : Work) (w0 : World) :
    BenchmarkResult × World :=
  let initial_memory := w0.mem
  match runIters work w0 5 with
  | Except.error (e, we) =>
    ({ name := name
       duration_ms := 0
       memory_mb := 0
       cpu_percent := 0
       success := false
       error := some e
       metadata := none }, we)
  | Except.ok (wf, durations, _) =>
    let final_memory := wf.mem
    let memory_delta := max 0 (final_memory - initial_memory)
    let avg_duration := mean durations
    let cpu_percent := min 100 (avg_duration / 10)
    ({ name := name
       duration_ms := avg_duration
       memory_mb := memory_delta
       cpu_percent := cpu_percent
       success := true
       error := none
       metadata := some
         { iterations := durations.length
           min_duration_ms := pyMin durations
           max_duration_ms := pyMax durations
           std_dev_ms := if 1 < durations.length then stdev durations else 0 } }, wf)

/-- The suite loops (`_run_core_benchmarks` etc., and their concatenation in
`run_benchmark_suite`): run each named probe in order through
`run_single_benchmark`, appending every result and threading the world. -/
noncomputable def run_benchmarks (benchmarks : List (String × Work)) (w : World) :
    List BenchmarkResult × World :=
  match benchmarks with
  | [] => ([], w)
  | (name, work) :: rest =>
    let rw := run_single_benchmark name work w
    let rws := run_benchmarks rest rw.2
    (rw.1 :: rws.1, rws.2)

/-- The work units present in the repository are `time.sleep(c)` calls:
they advance the clock by `c` seconds and leave memory unchanged. -/
def sleepWork (c : ℚ) : Work := fun w => Except.ok ⟨w.clock + c, w.mem⟩

/-- A work unit that behaves as `time.sleep(c)`: never raises, advances the
clock by a fixed `c`, leaves memory unchanged. -/
def IsSleep (f : Work) : Prop := ∃ c : ℚ, ∀ w, f w = sleepWork c w

/-! ## Spec-side tier model (for the refinement statement of C1)

`Tier` and `specLookup` are written from the specification words: a totally
ordered set `excellent < good < acceptable < poor` and an ascending
threshold lookup `v ≤ t1 → excellent, v ≤ t2 → good, v ≤ t3 → acceptable,
else poor`; the overall tier is the worst (highest-index) of three. -/

/-- The ordered tier set of the spec, best to worst. -/
inductive Tier
  | excellent
  | good
  | acceptable
  | poor
deriving DecidableEq

/-- Index of a tier in the order `excellent < good < acceptable < poor`. -/
def Tier.index : Tier → ℕ
  | .excellent => 0
  | .good => 1
  | .acceptable => 2
  | .poor => 3

/-- The label of a tier, as the source spells it. -/
def Tier.label : Tier → String
  | .excellent => "excellent"
  | .good => "good"
  | .acceptable => "acceptable"
  | .poor => "poor"

/-- Spec-side classification of one metric value against an ascending
threshold table `t1 ≤ t2 ≤ t3`. -/
def specLookup (v t1 t2 t3 : ℚ) : Tier :=
  if v ≤ t1 then .excellent
  else if v ≤ t2 then .good
  else if v ≤ t3 then .acceptable
  else .poor

/-- The worse (higher-index) of two tiers. -/
def Tier.worse (a b : Tier) : Tier := if b.index ≤ a.index then a else b

lemma get_category_eq_specLookup (v : ℚ) (t : Thresholds) :
    get_category v t = (specLookup v t.excellent t.good t.acceptable).label := by
  unfold get_category specLookup
  split_ifs <;> rfl

lemma getD_max_index (a b c : Tier) :
    categoriesList.getD (max (categoriesList.indexOf a.label)
        (max (categoriesList.indexOf b.label) (categoriesList.indexOf c.label))) ""
      = (Tier.worse a (Tier.worse b c)).label := by
  cases a <;> cases b <;> cases c <;> rfl

/-- C1: for a successful sample the overall category is the worst
(highest-index) of the three per-metric tiers, each obtained by the
ascending-threshold lookup with the default tables 100/500/1000 (duration),
10/25/50 (memory) and 20/50/80 (CPU); in particular (50, 5, 10) classifies
as excellent and (50, 60, 10) as poor. -/
theorem c1_overall_tier_is_worst_of_three (r : BenchmarkResult)
    (hs : r.success = true) :
    categorize_performance r =
      (Tier.worse (specLookup r.duration_ms 100 500 1000)
        (Tier.worse (specLookup r.memory_mb 10 25 50)
          (specLookup r.cpu_percent 20 50 80))).label
    ∧ categorize_performance ⟨"A", 50, 5, 10, true, none, none⟩ = "excellent"
    ∧ categorize_performance ⟨"B", 50, 60, 10, true, none, none⟩ = "poor" := by
  refine ⟨?_, by decide, by decide⟩
  unfold categorize_performance
  rw [get_category_eq_specLookup, get_category_eq_specLookup,
    get_category_eq_specLookup]
  exact getD_max_index _ _ _

/-- C1 witness: the theorem instantiated at the concrete sample
(duration 50, memory 5, CPU 10), a successful sample. -/
theorem c1_witness :
    (⟨"A", 50, 5, 10, true, none, none⟩ : BenchmarkResult).success = true
    ∧ categorize_performance ⟨"A", 50, 5, 10, true, none, none⟩ =
        (Tier.worse (specLookup 50 100 500 1000)
          (Tier.worse (specLookup 5 10 25 50) (specLookup 10 20 50 80))).label :=
  ⟨rfl, (c1_overall_tier_is_worst_of_three ⟨"A", 50, 5, 10, true, none, none⟩ rfl).1⟩

/-! ## Percentile (C2, C9) -/

lemma insertionSort_length (data : List ℚ) :
    (List.insertionSort (· ≤ ·) data).length = data.length :=
  (List.perm_insertionSort (· ≤ ·) data).length_eq

lemma percentile_spec (data : List ℚ) (p : ℕ) (h : data ≠ []) :
    percentile data p =
      (List.insertionSort (· ≤ ·) data).getD
        (min (data.length * p / 100) (data.length - 1)) 0 := by
  rw [percentile, if_neg (by simp [List.isEmpty_eq_false, h])]
  simp only [insertionSort_length]

/-- C2: on a non-empty list, `percentile` sorts ascending, takes the index
`⌊len · p / 100⌋` clamped to the last valid index, and returns the element
there; on the empty list it returns 0; `percentile [10,20,30,40,50] 50 = 30`. -/
theorem c2_percentile_nearest_rank (data : List ℚ) (p : ℕ) (h : data ≠ []) :
    (List.Sorted (· ≤ ·) (List.insertionSort (· ≤ ·) data)
      ∧ (List.insertionSort (· ≤ ·) data).Perm data
      ∧ percentile data p =
          (List.insertionSort (· ≤ ·) data).getD
            (min (data.length * p / 100) (data.length - 1)) 0)
    ∧ percentile [] p = 0
    ∧ percentile [10, 20, 30, 40, 50] 50 = 30 := by
  exact ⟨⟨List.sorted_insertionSort _ _, List.perm_insertionSort _ _,
    percentile_spec data p h⟩, rfl, by decide⟩

/-- C2 witness: the theorem instantiated at the non-empty list
`[10, 20, 30, 40, 50]` with `p = 50`. -/
theorem c2_witness :
    ([10, 20, 30, 40, 50] : List ℚ) ≠ []
    ∧ percentile [10, 20, 30, 40, 50] 50 =
        (List.insertionSort (· ≤ ·) ([10, 20, 30, 40, 50] : List ℚ)).getD
          (min (([10, 20, 30, 40, 50] : List ℚ).length * 50 / 100)
            (([10, 20, 30, 40, 50] : List ℚ).length - 1)) 0 :=
  ⟨by decide, (c2_percentile_nearest_rank [10, 20, 30, 40, 50] 50 (by decide)).1.2.2⟩

lemma foldl_min_le (l : List ℚ) (a : ℚ) : l.foldl min a ≤ a := by
  induction l generalizing a with
  | nil => exact le_refl a
  | cons x xs ih => exact le_trans (ih (min a x)) (min_le_left a x)

lemma foldl_min_le_mem (l : List ℚ) (a x : ℚ) (hx : x ∈ l) : l.foldl min a ≤ x := by
  induction l generalizing a with
  | nil => cases hx
  | cons y ys ih =>
    rcases List.mem_cons.mp hx with rfl | hx2
    · exact le_trans (foldl_min_le ys (min a x)) (min_le_right a x)
    · exact ih (min a y) hx2

lemma pyMin_le_of_mem (l : List ℚ) (x : ℚ) (hx : x ∈ l) : pyMin l ≤ x := by
  cases l with
  | nil => cases hx
  | cons a as =>
    rcases List.mem_cons.mp hx with rfl | hx2
    · exact foldl_min_le as x
    · exact foldl_min_le_mem as a x hx2

lemma le_foldl_max (l : List ℚ) (a : ℚ) : a ≤ l.foldl max a := by
  induction l generalizing a with
  | nil => exact le_refl a
  | cons x xs ih => exact le_trans (le_max_left a x) (ih (max a x))

lemma mem_le_foldl_max (l : List ℚ) (a x : ℚ) (hx : x ∈ l) : x ≤ l.foldl max a := by
  induction l generalizing a with
  | nil => cases hx
  | cons y ys ih =>
    rcases List.mem_cons.mp hx with rfl | hx2
    · exact le_trans (le_max_right a x) (le_foldl_max ys (max a x))
    · exact ih (max a y) hx2

lemma le_pyMax_of_mem (l : List ℚ) (x : ℚ) (hx : x ∈ l) : x ≤ pyMax l := by
  cases l with
  | nil => cases hx
  | cons a as =>
    rcases List.mem_cons.mp hx with rfl | hx2
    · exact le_foldl_max as x
    · exact mem_le_foldl_max as a x hx2

/-- C9: on a non-empty list and `p ≤ 100` (the clamp in fact makes any `p`
work), the percentile is an element of the list, hence lies between the
minimum and the maximum of the list. -/
theorem c9_percentile_mem (data : List ℚ) (p : ℕ) (h : data ≠ []) (hp : p ≤ 100) :
    percentile data p ∈ data
    ∧ pyMin data ≤ percentile data p
    ∧ percentile data p ≤ pyMax data := by
  have hlen : 0 < data.length := List.length_pos.mpr h
  have hmem : percentile data p ∈ data := by
    have hidx : min (data.length * p / 100) (data.length - 1) <
        (List.insertionSort (· ≤ ·) data).length := by
      rw [insertionSort_length]
      exact lt_of_le_of_lt (min_le_right _ _) (Nat.sub_lt hlen (by norm_num))
    rw [percentile_spec data p h, List.getD_eq_getElem _ _ hidx]
    exact (List.perm_insertionSort (· ≤ ·) data).mem_iff.mp
      (List.getElem_mem hidx)
  exact ⟨hmem, pyMin_le_of_mem data _ hmem, le_pyMax_of_mem data _ hmem⟩

/-- C9 witness: the theorem instantiated at `[10, 20, 30, 40, 50]`,
`p = 95`. -/
theorem c9_witness :
    ([10, 20, 30, 40, 50] : List ℚ) ≠ [] ∧ (95 : ℕ) ≤ 100
    ∧ percentile [10, 20, 30, 40, 50] 95 ∈ ([10, 20, 30, 40, 50] : List ℚ) :=
  ⟨by decide, by decide,
    (c9_percentile_mem [10, 20, 30, 40, 50] 95 (by decide) (by decide)).1⟩

/-! ## Recommendations (C4) -/

/-- C4: the recommendation list is the in-order concatenation of the three
independent threshold rules (each firing exactly when its filter is
non-empty), with the affirmation exactly when none fired; in particular a
suite where every sample reads (10, 1, 1) yields only the affirmation. -/
theorem c4_recommendation_rules (results : List BenchmarkResult)
    (hne : results ≠ []) (hs : ∀ r ∈ results, r.success = true) :
    (generate_recommendations results =
      (let rule1 : List String :=
        if !(results.filter (fun r => decide (100 < r.duration_ms))).isEmpty then
          ["Consider optimizing " ++
            toString (results.filter (fun r => decide (100 < r.duration_ms))).length ++
            " slow operations: " ++
            String.intercalate ", "
              (((results.filter (fun r => decide (100 < r.duration_ms))).take 3).map
                (fun r => r.name))]
        else []
      let rule2 : List String :=
        if !(results.filter (fun r => decide (25 < r.memory_mb))).isEmpty then
          ["Review memory usage for " ++
            toString (results.filter (fun r => decide (25 < r.memory_mb))).length ++
            " memory-intensive operations"]
        else []
      let rule3 : List String :=
        if !(results.filter (fun r => decide (50 < r.cpu_percent))).isEmpty then
          ["Optimize CPU usage for " ++
            toString (results.filter (fun r => decide (50 < r.cpu_percent))).length ++
            " CPU-intensive operations"]
        else []
      if (rule1 ++ rule2 ++ rule3).isEmpty then
        ["Excellent performance across all benchmarks!"]
      else rule1 ++ rule2 ++ rule3))
    ∧ ((∀ r ∈ results, r.duration_ms = 10 ∧ r.memory_mb = 1 ∧ r.cpu_percent = 1) →
        generate_recommendations results =
          ["Excellent performance across all benchmarks!"]) := by
  constructor
  · cases h1 : (results.filter (fun r => decide (100 < r.duration_ms))).isEmpty <;>
      cases h2 : (results.filter (fun r => decide (25 < r.memory_mb))).isEmpty <;>
        cases h3 : (results.filter (fun r => decide (50 < r.cpu_percent))).isEmpty <;>
          simp [generate_recommendations, h1, h2, h3]
  · intro hall
    have f1 : results.filter (fun r => decide (100 < r.duration_ms)) = [] := by
      rw [List.filter_eq_nil_iff]
      intro r hr
      rw [(hall r hr).1]
      decide
    have f2 : results.filter (fun r => decide (25 < r.memory_mb)) = [] := by
      rw [List.filter_eq_nil_iff]
      intro r hr
      rw [(hall r hr).2.1]
      decide
    have f3 : results.filter (fun r => decide (50 < r.cpu_percent)) = [] := by
      rw [List.filter_eq_nil_iff]
      intro r hr
      rw [(hall r hr).2.2]
      decide
    simp [generate_recommendations, f1, f2, f3]

/-- C4 witness: a one-element suite with readings (10, 1, 1) yields exactly
the affirmation string. -/
theorem c4_witness :
    ([(⟨"A", 10, 1, 1, true, none, none⟩ : BenchmarkResult)] ≠ [])
    ∧ generate_recommendations [⟨"A", 10, 1, 1, true, none, none⟩] =
        ["Excellent performance across all benchmarks!"] :=
  ⟨by simp,
    (c4_recommendation_rules [⟨"A", 10, 1, 1, true, none, none⟩] (by simp)
      (by intro r hr; simp at hr; rw [hr]) ).2
      (by intro r hr; simp at hr; rw [hr]; exact ⟨rfl, rfl, rfl⟩)⟩

/-! ## Summary builder (C5, C6, C10) -/

/-- C5: with at least one success, the summary counts every sample in the
denominator of the success rate but computes every aggregate block over the
successful samples only. -/
theorem c5_aggregates_over_successful (results : List BenchmarkResult)
    (total_duration : ℚ)
    (hne : (results.filter (fun r => r.success)).isEmpty = false) :
    (generate_summary results total_duration).total_tests = results.length
    ∧ (generate_summary results total_duration).successful =
        (results.filter (fun r => r.success)).length
    ∧ (generate_summary results total_duration).failed =
        (results.filter (fun r => !r.success)).length
    ∧ (generate_summary results total_duration).success_rate =
        ((results.filter (fun r => r.success)).length : ℚ) /
          (results.length : ℚ) * 100
    ∧ (generate_summary results total_duration).performance_stats = some
        ⟨mean ((results.filter (fun r => r.success)).map (fun r => r.duration_ms)),
          pyMin ((results.filter (fun r => r.success)).map (fun r => r.duration_ms)),
          pyMax ((results.filter (fun r => r.success)).map (fun r => r.duration_ms)),
          percentile ((results.filter (fun r => r.success)).map (fun r => r.duration_ms)) 95,
          percentile ((results.filter (fun r => r.success)).map (fun r => r.duration_ms)) 99⟩
    ∧ (generate_summary results total_duration).memory_stats = some
        ⟨mean ((results.filter (fun r => r.success)).map (fun r => r.memory_mb)),
          pyMax ((results.filter (fun r => r.success)).map (fun r => r.memory_mb)),
          ((results.filter (fun r => r.success)).map (fun r => r.memory_mb)).sum⟩
    ∧ (generate_summary results total_duration).cpu_stats = some
        ⟨mean ((results.filter (fun r => r.success)).map (fun r => r.cpu_percent)),
          pyMax ((results.filter (fun r => r.success)).map (fun r => r.cpu_percent))⟩ := by
  simp [generate_summary, hne]

/-- Ten concrete samples, two of them failed (C5 witness data). -/
def tenResults : List BenchmarkResult :=
  [⟨"t1", 10, 1, 1, true, none, none⟩,
   ⟨"t2", 11, 1, 1, true, none, none⟩,
   ⟨"t3", 12, 1, 1, true, none, none⟩,
   ⟨"t4", 13, 1, 1, true, none, none⟩,
   ⟨"t5", 14, 1, 1, true, none, none⟩,
   ⟨"t6", 15, 1, 1, true, none, none⟩,
   ⟨"t7", 16, 1, 1, true, none, none⟩,
   ⟨"t8", 17, 1, 1, true, none, none⟩,
   ⟨"t9", 0, 0, 0, false, some "boom", none⟩,
   ⟨"t10", 0, 0, 0, false, some "crash", none⟩]

/-- C5 witness: ten samples with two failures give success rate 80. -/
theorem c5_witness :
    (tenResults.filter (fun r => r.success)).isEmpty = false
    ∧ (generate_summary tenResults 0).success_rate = 80 := by
  refine ⟨by decide, ?_⟩
  have h := (c5_aggregates_over_successful tenResults 0 (by decide)).2.2.2.1
  rw [show (tenResults.filter (fun r => r.success)).length = 8 from rfl,
    show tenResults.length = 10 from rfl] at h
  rw [h]
  norm_num

/-- C6: with zero successes the summary is the early-return record: rate 0,
no stat blocks, no category counts, no recommendations, while total and
failed counts are still reported. -/
theorem c6_zero_success_summary (results : List BenchmarkResult)
    (total_duration : ℚ)
    (hz : (results.filter (fun r => r.success)).isEmpty = true) :
    (generate_summary results total_duration).success_rate = 0
    ∧ (generate_summary results total_duration).performance_stats = none
    ∧ (generate_summary results total_duration).memory_stats = none
    ∧ (generate_summary results total_duration).cpu_stats = none
    ∧ (generate_summary results total_duration).performance_categories = none
    ∧ (generate_summary results total_duration).recommendations = none
    ∧ (generate_summary results total_duration).total_tests = results.length
    ∧ (generate_summary results total_duration).failed =
        (results.filter (fun r => !r.success)).length
    ∧ (generate_summary results total_duration).successful = 0 := by
  simp [generate_summary, hz]

/-- C6 witness: a suite whose only two samples failed. -/
theorem c6_witness :
    (([⟨"f1", 0, 0, 0, false, some "e1", none⟩,
       ⟨"f2", 0, 0, 0, false, some "e2", none⟩] :
        List BenchmarkResult).filter (fun r => r.success)).isEmpty = true
    ∧ (generate_summary
        [⟨"f1", 0, 0, 0, false, some "e1", none⟩,
         ⟨"f2", 0, 0, 0, false, some "e2", none⟩] 0).success_rate = 0 :=
  ⟨by decide,
    (c6_zero_success_summary
      [⟨"f1", 0, 0, 0, false, some "e1", none⟩,
       ⟨"f2", 0, 0, 0, false, some "e2", none⟩] 0 (by decide)).1⟩

/-- Sum of the four per-tier counters. -/
def Categories.total (c : Categories) : ℕ :=
  c.excellent + c.good + c.acceptable + c.poor

lemma indexOf_get_category_le (v : ℚ) (t : Thresholds) :
    categoriesList.indexOf (get_category v t) ≤ 3 := by
  unfold get_category
  split_ifs <;> decide

lemma categorize_performance_mem (r : BenchmarkResult) :
    categorize_performance r ∈ categoriesList := by
  have hall : ∀ i, i ≤ 3 → categoriesList.getD i "" ∈ categoriesList := by decide
  unfold categorize_performance
  exact hall _ (max_le (indexOf_get_category_le _ _)
    (max_le (indexOf_get_category_le _ _) (indexOf_get_category_le _ _)))

lemma total_bumpCategory (c : Categories) (s : String) (hs : s ∈ categoriesList) :
    (bumpCategory c s).total = c.total + 1 := by
  simp only [categoriesList, List.mem_cons, List.not_mem_nil, or_false] at hs
  rcases hs with rfl | rfl | rfl | rfl <;>
    simp [bumpCategory, Categories.total] <;> omega

lemma total_foldl_bump (l : List BenchmarkResult) (init : Categories) :
    (l.foldl (fun c r => bumpCategory c (categorize_performance r)) init).total
      = init.total + l.length := by
  induction l generalizing init with
  | nil => simp
  | cons r rs ih =>
    simp only [List.foldl_cons, List.length_cons]
    rw [ih, total_bumpCategory _ _ (categorize_performance_mem r)]
    omega

/-- C10: with at least one success, the four tier counters of the summary
sum exactly to the number of successful samples (each successful sample is
counted in exactly one tier, failed samples in none). -/
theorem c10_category_counts_sum (results : List BenchmarkResult)
    (total_duration : ℚ)
    (hne : (results.filter (fun r => r.success)).isEmpty = false) :
    ∃ cats : Categories,
      (generate_summary results total_duration).performance_categories = some cats
      ∧ cats.excellent + cats.good + cats.acceptable + cats.poor =
          (results.filter (fun r => r.success)).length
      ∧ (generate_summary results total_duration).successful =
          (results.filter (fun r => r.success)).length := by
  refine ⟨(results.filter (fun r => r.success)).foldl
    (fun c r => bumpCategory c (categorize_performance r)) ⟨0, 0, 0, 0⟩, ?_, ?_, ?_⟩
  · simp [generate_summary, hne]
  · have h := total_foldl_bump (results.filter (fun r => r.success)) ⟨0, 0, 0, 0⟩
    simpa [Categories.total] using h
  · simp [generate_summary, hne]

/-- C10 witness: the ten-sample suite with eight successes. -/
theorem c10_witness :
    (tenResults.filter (fun r => r.success)).isEmpty = false
    ∧ ∃ cats : Categories,
        (generate_summary tenResults 0).performance_categories = some cats
        ∧ cats.excellent + cats.good + cats.acceptable + cats.poor =
            (tenResults.filter (fun r => r.success)).length :=
  ⟨by decide,
    let h := c10_category_counts_sum tenResults 0 (by decide)
    ⟨h.choose, h.choose_spec.1, h.choose_spec.2.1⟩⟩

/-! ## Single-probe runner (C3, C8) -/

lemma runIters_ok_counts (work : Work) (n : ℕ) :
    ∀ (w wf : World) (ds : List ℚ) (c : ℕ),
      runIters work w n = Except.ok (wf, ds, c) → ds.length = n ∧ c = n := by
  induction n with
  | zero =>
    intro w wf ds c h
    simp only [runIters, Except.ok.injEq, Prod.mk.injEq] at h
    exact ⟨by rw [← h.2.1]; rfl, h.2.2.symm⟩
  | succ n ih =>
    intro w wf ds c h
    rw [runIters] at h
    split at h
    · cases h
    · rename_i w1 hw
      split at h
      · cases h
      · rename_i wf2 ds2 c2 heq2
        have h2 : wf2 = wf ∧ (w1.clock - w.clock) * 1000 :: ds2 = ds ∧ c2 + 1 = c := by
          simpa using h
        obtain ⟨ihl, ihc⟩ := ih w1 wf2 ds2 c2 heq2
        rw [← h2.2.1, ← h2.2.2]
        simp [ihl, ihc]

/-- C8: a probe run that raises no exception invokes the work unit exactly
5 times (the invocation counter of `runIters` adds one per call of `work`);
the sample reports the mean of the five recorded wall-clock durations, the
clamped before/after memory delta, the `min(100, avg/10)` CPU
approximation, and metadata with iterations = 5 and the min, max and
sample standard deviation of the durations (the `0 when N=1` branch of the
source is dead since N is fixed at 5). -/
theorem c8_successful_run_shape (name : String) (work : Work) (w0 wf : World)
    (ds : List ℚ) (c : ℕ)
    (h : runIters work w0 5 = Except.ok (wf, ds, c)) :
    c = 5
    ∧ ds.length = 5
    ∧ (run_single_benchmark name work w0).1 =
        { name := name
          duration_ms := mean ds
          memory_mb := max 0 (wf.mem - w0.mem)
          cpu_percent := min 100 (mean ds / 10)
          success := true
          error := none
          metadata := some ⟨5, pyMin ds, pyMax ds, stdev ds⟩ } := by
  obtain ⟨hlen, hc⟩ := runIters_ok_counts work 5 w0 wf ds c h
  refine ⟨hc, hlen, ?_⟩
  simp [run_single_benchmark, h, hlen]

lemma runIters_sleep_pointwise (cq : ℚ) (f : Work) (hf : ∀ w, f w = sleepWork cq w)
    (n : ℕ) : ∀ (t m : ℚ),
      runIters f ⟨t, m⟩ n =
        Except.ok (⟨t + n * cq, m⟩, List.replicate n (cq * 1000), n) := by
  induction n with
  | zero => intro t m; simp [runIters]
  | succ n ih =>
    intro t m
    have hmain := ih (t + cq) m
    simp only [runIters, hf, sleepWork, hmain, List.replicate_succ,
      add_sub_cancel_left]
    have hclock : t + cq + (n : ℚ) * cq = t + ((n + 1 : ℕ) : ℚ) * cq := by
      push_cast
      ring
    rw [hclock]

/-- The zero-length sleep run, used as the concrete C8 hypothesis. -/
lemma runIters_sleepWork_zero :
    runIters (sleepWork 0) ⟨0, 0⟩ 5 =
      Except.ok (⟨0, 0⟩, List.replicate 5 0, 5) := by
  have h := runIters_sleep_pointwise 0 (sleepWork 0) (fun w => rfl) 5 0 0
  simpa using h

/-- C8 witness: the theorem instantiated at a zero-length sleep probe. -/
theorem c8_witness :
    runIters (sleepWork 0) ⟨0, 0⟩ 5 = Except.ok (⟨0, 0⟩, List.replicate 5 0, 5)
    ∧ (run_single_benchmark "probe" (sleepWork 0) ⟨0, 0⟩).1 =
        { name := "probe"
          duration_ms := mean (List.replicate 5 0)
          memory_mb := max 0 ((0 : ℚ) - 0)
          cpu_percent := min 100 (mean (List.replicate 5 0) / 10)
          success := true
          error := none
          metadata := some ⟨5, pyMin (List.replicate 5 0),
            pyMax (List.replicate 5 0), stdev (List.replicate 5 0)⟩ } :=
  ⟨runIters_sleepWork_zero,
    (c8_successful_run_shape "probe" (sleepWork 0) ⟨0, 0⟩ ⟨0, 0⟩
      (List.replicate 5 0) 5 runIters_sleepWork_zero).2.2⟩

/-- C3 counterexample: the claim requires the error of every failed sample
to be non-empty, but the runner stores the stringified exception `str(e)`
verbatim, and a Python exception may stringify to `""` (for example
`Exception()`); a probe raising such an exception yields a failed sample
whose error string is empty. -/
theorem c3_counterexample :
    ((run_single_benchmark "SharedStore_Initialization"
        (fun _ => Except.error "") ⟨0, 25⟩).1.success = false)
    ∧ ¬ ∃ s : String,
        (run_single_benchmark "SharedStore_Initialization"
          (fun _ => Except.error "") ⟨0, 25⟩).1.error = some s ∧ s ≠ "" := by
  refine ⟨rfl, ?_⟩
  rintro ⟨s, hs, hne⟩
  have h0 : (run_single_benchmark "SharedStore_Initialization"
      (fun _ => Except.error "") ⟨0, 25⟩).1.error = some "" := rfl
  rw [h0] at hs
  injection hs with h
  exact hne h.symm

/-- C3 (amended): a failed sample reports zero duration, memory and CPU and
has no metadata, and its error field is present — it carries the
stringified exception, which may be the empty string. -/
theorem c3_failed_sample_fields (name : String) (work : Work) (w0 : World)
    (h : (run_single_benchmark name work w0).1.success = false) :
    (run_single_benchmark name work w0).1.duration_ms = 0
    ∧ (run_single_benchmark name work w0).1.memory_mb = 0
    ∧ (run_single_benchmark name work w0).1.cpu_percent = 0
    ∧ (run_single_benchmark name work w0).1.metadata = none
    ∧ ∃ s : String, (run_single_benchmark name work w0).1.error = some s := by
  cases hr : runIters work w0 5 with
  | error ew =>
    obtain ⟨e, we⟩ := ew
    refine ⟨?_, ?_, ?_, ?_, e, ?_⟩ <;> simp [run_single_benchmark, hr]
  | ok t =>
    obtain ⟨wf, ds, c⟩ := t
    simp [run_single_benchmark, hr] at h

/-- C3 witness (for the amended statement): a probe raising the message
boom. -/
theorem c3_witness :
    (run_single_benchmark "probe" (fun _ => Except.error "boom")
      ⟨0, 25⟩).1.success = false
    ∧ ∃ s : String,
        (run_single_benchmark "probe" (fun _ => Except.error "boom")
          ⟨0, 25⟩).1.error = some s :=
  ⟨rfl, (c3_failed_sample_fields "probe" (fun _ => Except.error "boom")
    ⟨0, 25⟩ rfl).2.2.2.2⟩

/-! ## Suite-level failure isolation (C7) -/

/-- The `success=false` result built by the `except` branch of
`_run_single_benchmark`. -/
def failedResult (name msg : String) : BenchmarkResult :=
  { name := name
    duration_ms := 0
    memory_mb := 0
    cpu_percent := 0
    success := false
    error := some msg
    metadata := none }

lemma run_single_fail (name : String) (f : Work) (w : World) (msg : String)
    (wmid : World) (hfail : runIters f w 5 = Except.error (msg, wmid)) :
    run_single_benchmark name f w = (failedResult name msg, wmid) := by
  simp [run_single_benchmark, failedResult, hfail]

lemma run_single_sleep (name : String) (f : Work) (cq : ℚ)
    (hf : ∀ w, f w = sleepWork cq w) (w : World) :
    run_single_benchmark name f w =
      ({ name := name
         duration_ms := mean (List.replicate 5 (cq * 1000))
         memory_mb := 0
         cpu_percent := min 100 (mean (List.replicate 5 (cq * 1000)) / 10)
         success := true
         error := none
         metadata := some ⟨5, pyMin (List.replicate 5 (cq * 1000)),
           pyMax (List.replicate 5 (cq * 1000)),
           stdev (List.replicate 5 (cq * 1000))⟩ },
       ⟨w.clock + 5 * cq, w.mem⟩) := by
  obtain ⟨t, m⟩ := w
  have h := runIters_sleep_pointwise cq f hf 5 t m
  simp [run_single_benchmark, h]

lemma run_benchmarks_length (l : List (String × Work)) (w : World) :
    (run_benchmarks l w).1.length = l.length := by
  induction l generalizing w with
  | nil => rfl
  | cons p rest ih =>
    obtain ⟨n, f⟩ := p
    simp [run_benchmarks, ih]

lemma run_benchmarks_append (a b : List (String × Work)) (w : World) :
    run_benchmarks (a ++ b) w =
      ((run_benchmarks a w).1 ++ (run_benchmarks b (run_benchmarks a w).2).1,
       (run_benchmarks b (run_benchmarks a w).2).2) := by
  induction a generalizing w with
  | nil => simp [run_benchmarks]
  | cons p rest ih =>
    obtain ⟨n, f⟩ := p
    simp [List.cons_append, run_benchmarks, ih]

lemma run_benchmarks_sleeps_fst (l : List (String × Work))
    (hl : ∀ p ∈ l, IsSleep p.2) (w w2 : World) :
    (run_benchmarks l w).1 = (run_benchmarks l w2).1 := by
  induction l generalizing w w2 with
  | nil => rfl
  | cons p rest ih =>
    obtain ⟨n, f⟩ := p
    obtain ⟨cq, hf⟩ := hl (n, f) (by simp)
    simp only [run_benchmarks]
    rw [run_single_sleep n f cq hf w, run_single_sleep n f cq hf w2]
    congr 1
    exact ih (fun q hq => hl q (List.mem_cons_of_mem _ hq)) _ _

/-- C7: a probe whose work unit raises, run between sleep probes, is caught
at the per-probe boundary: the suite still produces one sample per probe,
the failing probe contributes the `success=false` sample carrying the
stringified error, and every other probe produces the same sample as it
would if the failing probe were replaced by any other work unit. -/
theorem c7_failure_caught_and_isolated (pre post : List (String × Work))
    (name : String) (f g : Work) (w0 : World) (msg : String) (wmid : World)
    (hpre : ∀ p ∈ pre, IsSleep p.2) (hpost : ∀ p ∈ post, IsSleep p.2)
    (hfail : runIters f (run_benchmarks pre w0).2 5 = Except.error (msg, wmid)) :
    (run_benchmarks (pre ++ (name, f) :: post) w0).1.length =
        pre.length + 1 + post.length
    ∧ (run_benchmarks (pre ++ (name, f) :: post) w0).1[pre.length]? =
        some (failedResult name msg)
    ∧ (run_benchmarks (pre ++ (name, f) :: post) w0).1.take pre.length =
        (run_benchmarks (pre ++ (name, g) :: post) w0).1.take pre.length
    ∧ (run_benchmarks (pre ++ (name, f) :: post) w0).1.drop (pre.length + 1) =
        (run_benchmarks (pre ++ (name, g) :: post) w0).1.drop (pre.length + 1) := by
  have hlpre : (run_benchmarks pre w0).1.length = pre.length :=
    run_benchmarks_length pre w0
  have hFf : (run_benchmarks (pre ++ (name, f) :: post) w0).1 =
      (run_benchmarks pre w0).1 ++
        failedResult name msg ::
          (run_benchmarks post wmid).1 := by
    rw [run_benchmarks_append]
    simp only [run_benchmarks]
    rw [run_single_fail name f _ msg wmid hfail]
  have hFg : (run_benchmarks (pre ++ (name, g) :: post) w0).1 =
      (run_benchmarks pre w0).1 ++
        (run_single_benchmark name g (run_benchmarks pre w0).2).1 ::
          (run_benchmarks post
            (run_single_benchmark name g (run_benchmarks pre w0).2).2).1 := by
    rw [run_benchmarks_append]
    simp only [run_benchmarks]
  refine ⟨?_, ?_, ?_, ?_⟩
  · rw [hFf]
    simp [hlpre, run_benchmarks_length]
    omega
  · rw [hFf, List.getElem?_append_right (le_of_eq hlpre)]
    simp [hlpre]
  · rw [hFf, hFg, ← hlpre, List.take_left, List.take_left]
  · rw [hFf, hFg]
    have hdq : ∀ x : List BenchmarkResult, x.drop (pre.length + 1) =
        (x.drop pre.length).drop 1 := by
      intro x
      rw [List.drop_drop]
    rw [hdq, hdq, ← hlpre, List.drop_left, List.drop_left]
    simp only [List.drop_succ_cons, List.drop_zero]
    exact run_benchmarks_sleeps_fst post hpost _ _

/-- C7 witness: a failing probe between two sleep probes. -/
theorem c7_witness :
    runIters (fun _ => Except.error "boom")
        (run_benchmarks [("p", sleepWork 0)] ⟨0, 0⟩).2 5 =
      Except.error ("boom", (run_benchmarks [("p", sleepWork 0)] ⟨0, 0⟩).2)
    ∧ (run_benchmarks
        ([("p", sleepWork 0)] ++ ("x", fun _ => Except.error "boom") ::
          [("q", sleepWork 0)]) ⟨0, 0⟩).1.length = 3
    ∧ (run_benchmarks
        ([("p", sleepWork 0)] ++ ("x", fun _ => Except.error "boom") ::
          [("q", sleepWork 0)]) ⟨0, 0⟩).1[1]? =
        some (failedResult "x" "boom") := by
  have hs : ∀ p ∈ [("p", sleepWork 0)], IsSleep p.2 := by
    intro p hp
    simp only [List.mem_singleton] at hp
    rw [hp]
    exact ⟨0, fun w => rfl⟩
  have hs2 : ∀ p ∈ [("q", sleepWork 0)], IsSleep p.2 := by
    intro p hp
    simp only [List.mem_singleton] at hp
    rw [hp]
    exact ⟨0, fun w => rfl⟩
  have h := c7_failure_caught_and_isolated [("p", sleepWork 0)] [("q", sleepWork 0)]
    "x" (fun _ => Except.error "boom") (sleepWork 0) ⟨0, 0⟩ "boom"
    (run_benchmarks [("p", sleepWork 0)] ⟨0, 0⟩).2 hs hs2 rfl
  exact ⟨rfl, h.1, h.2.1⟩

end Benchmark
